import Mathlib

/-!
Verification development for the Atlas tier scale-down monitor
(`monitor_and_scale_down.py`).

The Python code traverses loosely-typed JSON documents.  The embedding
represents each JSON object by a structure whose fields are `Option`-valued:
`none` models an absent key (and, where noted, a JSON `null` value, which the
code reads through `dict.get` exactly like an absent key).  Python floats are
modelled as exact rationals (`ℚ`); every threshold comparison proved here is
robust to that idealization.  Timestamp strings are modelled at the parsed
level: a stored `lastTierUpdate` value enters the core as `Option ℚ` (epoch
seconds, timezone-normalized), with `none` standing for an empty or
unparseable string — both are handled identically by the source
(`_parse_timestamp` failure and the empty check both short-circuit the same
way).  Network fetches (`get_cluster_details`, process lookup, metric
fetches, the PATCH outcome) become explicit inputs of the pure functions
that consume them.
-/

set_option autoImplicit false

namespace AtlasScale

/-- Model of Python `int(str)` over a character list: optional surrounding
ASCII whitespace, an optional sign, then one or more decimal digits.
(Underscore digit separators are not modelled; on such inputs this model
fails the parse, which only makes `_tier_to_number` return its 0 fallback.) -/
def digitsVal : List Char → Option Nat
  | [] => none
  | l =>
    if l.all Char.isDigit then
      some (l.foldl (fun acc c => acc * 10 + (c.toNat - '0'.toNat)) 0)
    else
      none

/-- Strip leading and trailing whitespace, as Python `int` does before
parsing. -/
def trimWs (l : List Char) : List Char :=
  ((l.dropWhile Char.isWhitespace).reverse.dropWhile Char.isWhitespace).reverse

def pyIntL (l : List Char) : Option Int :=
  match trimWs l with
  | [] => none
  | c :: rest =>
    if c = '-' then
      match digitsVal rest with
      | none => none
      | some m => some (-(m : Int))
    else if c = '+' then
      match digitsVal rest with
      | none => none
      | some m => some ((m : Int))
    else
      match digitsVal (c :: rest) with
      | none => none
      | some m => some ((m : Int))

def pyInt (s : String) : Option Int :=
  pyIntL s.data

/-- `ScaleDownMonitor._tier_to_number` (lines 119–128): empty input is falsy
and gives 0; a leading letter whose uppercase form is `M` or `R` is stripped
(`tier_str.upper().startswith(("M", "R"))`); the remainder is parsed with
Python `int`, any parse failure giving 0. -/
def tier_to_number (s : String) : Int :=
  match s.data with
  | [] => 0
  | c :: rest =>
    if c.toUpper = 'M' ∨ c.toUpper = 'R' then (pyIntL rest).getD 0
    else (pyIntL (c :: rest)).getD 0

/-- `electableSpecs` / `effectiveElectableSpecs` object: the keys this
system reads or writes.  Python `int`-valued `diskSizeGB` writes are stored
as integral rationals. -/
structure ElectableSpecs where
  instanceSize : Option String
  nodeCount : Option Int
  diskSizeGB : Option ℚ
  diskIOPS : Option Int
  ebsVolumeType : Option String
  deriving Repr, DecidableEq

/-- `autoScaling.compute` object; `none` at the `compute` field of
`AutoScaling` models an absent *or empty* compute dict (both are falsy in
`check_autoscale_limits`). -/
structure ComputeAutoScaling where
  minInstanceSize : Option String
  maxInstanceSize : Option String
  deriving Repr, DecidableEq

structure AutoScaling where
  compute : Option ComputeAutoScaling
  deriving Repr, DecidableEq

/-- A region configuration object.  The same structure serves the flat
`regionConfigs` entries and the values of the legacy `regionsConfig`
mapping (the source reads both shapes through the same dictionary
accesses). -/
structure RegionConfig where
  priority : Option Int
  regionName : Option String
  providerName : Option String
  electableSpecs : Option ElectableSpecs
  analyticsSpecs : Option ElectableSpecs
  readOnlySpecs : Option ElectableSpecs
  autoScaling : Option AutoScaling
  effectiveElectableSpecs : Option ElectableSpecs
  deriving Repr, DecidableEq

/-- One `replicationSpecs` entry.  `regionConfigs = none` models an absent
key (the conversion in `update_cluster_shards` tests key *presence* with
`"regionConfigs" not in spec`, while `_get_region_config` tests
*truthiness*, so the two must stay distinguishable); `regionsConfig` is the
legacy mapping form, kept as an insertion-ordered association list exactly
as a Python dict iterates. -/
structure ShardSpec where
  id : Option String
  numShards : Option Int
  zoneName : Option String
  regionConfigs : Option (List RegionConfig)
  regionsConfig : Option (List (String × RegionConfig))
  deriving Repr, DecidableEq

structure ProviderSettings where
  providerName : Option String
  deriving Repr, DecidableEq

/-- The slice of the cluster document (`get_cluster_details` result) that
the shard-level logic reads.  `replicationSpecs` absent is identified with
the empty list (the source always reads it via `.get(..., [])`).  The
cluster-level read-only metadata stripped at lines 396–417 is not
referenced by any shard-level property and is not modelled. -/
structure ClusterInfo where
  replicationSpecs : List ShardSpec
  providerSettings : Option ProviderSettings
  deriving Repr, DecidableEq

/-- First-region lookup inside one spec, mirroring the body of
`_get_region_config`: the flat list if truthy (present and non-empty),
else the first value of the legacy mapping if truthy, else nothing. -/
def specFirstRegion (spec : ShardSpec) : Option RegionConfig :=
  match spec.regionConfigs.getD [] with
  | rc :: _ => some rc
  | [] =>
    match spec.regionsConfig.getD [] with
    | (_, rc) :: _ => some rc
    | [] => none

/-- `ScaleDownMonitor._get_region_config` (lines 104–117). -/
def get_region_config (ci : ClusterInfo) (shardIndex : Int) : Option RegionConfig :=
  if shardIndex < 0 ∨ (ci.replicationSpecs.length : Int) ≤ shardIndex then none
  else (ci.replicationSpecs.get? shardIndex.toNat).bind specFirstRegion

/-- `ScaleDownMonitor.check_shard_tier` (lines 316–322). -/
def check_shard_tier (ci : ClusterInfo) (shardIndex : Int) : Option String :=
  (get_region_config ci shardIndex).bind fun rc =>
    rc.effectiveElectableSpecs.bind fun es => es.instanceSize

/-- The distinct failure messages of `check_autoscale_limits`, by kind (the
formatted message text carries no additional decision-relevant data). -/
inductive AutoscaleReason where
  | noRegionConfig
  | noComputeConfig
  | minMaxMissing
  | baseTierOutside
  | scaleUpTierOutside
  deriving Repr, DecidableEq

/-- `ScaleDownMonitor.check_autoscale_limits` (lines 324–354). -/
def check_autoscale_limits (ci : ClusterInfo) (shardIndex : Int)
    (baseTier scaleUpTier : String) : Bool × List AutoscaleReason :=
  match get_region_config ci shardIndex with
  | none => (false, [AutoscaleReason.noRegionConfig])
  | some rc =>
    match rc.autoScaling.bind (fun a => a.compute) with
    | none => (false, [AutoscaleReason.noComputeConfig])
    | some cc =>
      let minS := cc.minInstanceSize.getD ""
      let maxS := cc.maxInstanceSize.getD ""
      if minS = "" ∨ maxS = "" then (false, [AutoscaleReason.minMaxMissing])
      else
        let baseNum := tier_to_number baseTier
        let scaleUpNum := tier_to_number scaleUpTier
        let minNum := tier_to_number minS
        let maxNum := tier_to_number maxS
        let reasons :=
          (if baseNum < minNum ∨ maxNum < baseNum
            then [AutoscaleReason.baseTierOutside] else []) ++
          (if scaleUpNum < minNum ∨ maxNum < scaleUpNum
            then [AutoscaleReason.scaleUpTierOutside] else [])
        (reasons.isEmpty, reasons)

/-- `ScaleDownMonitor.check_time_since_update` (lines 356–367): `now` and
the parsed timestamp are epoch seconds; the second component is the
elapsed seconds (`time_diff`), `none` when the stored string was empty or
unparseable. -/
def check_time_since_update (now : ℚ) (lastTierUpdate : Option ℚ)
    (minHours : Int) : Bool × Option ℚ :=
  match lastTierUpdate with
  | none => (true, none)
  | some t =>
    let diff := now - t
    (decide ((minHours : ℚ) ≤ diff / 3600), some diff)

/-- `ScaleDownMonitor.is_timestamp_very_old` (lines 369–381); the call
sites use the default threshold `NEW_SCALE_UP_THRESHOLD_HOURS = 24`. -/
def is_timestamp_very_old (now : ℚ) (lastTierUpdate : Option ℚ)
    (thresholdHours : Int) : Bool × Option ℚ :=
  match lastTierUpdate with
  | none => (true, none)
  | some t =>
    let diff := now - t
    (decide ((thresholdHours : ℚ) ≤ diff / 3600), some diff)

/-- One row of the tier-spec table (`load_tier_specs`): `ram` is a Python
float, `connection` and `iops` are ints. -/
structure TierSpec where
  ram : ℚ
  connection : Int
  iops : Int
  deriving Repr, DecidableEq

abbrev TierSpecs := List (String × TierSpec)

/-- The metric summary dictionary produced by `get_cluster_metrics`. -/
structure Metrics where
  cpu_max : ℚ
  cpu_avg : ℚ
  cpu_std : ℚ
  memory_max_gb : ℚ
  memory_avg_gb : ℚ
  iops_max : ℚ
  iops_avg : ℚ
  connections_max : ℚ
  connections_avg : ℚ
  deriving Repr, DecidableEq

/-- `ScaleDownMonitor._default_metrics` (lines 268–275). -/
def default_metrics : Metrics :=
  { cpu_max := 0, cpu_avg := 0, cpu_std := 0
    memory_max_gb := 0, memory_avg_gb := 0
    iops_max := 0, iops_avg := 0
    connections_max := 0, connections_avg := 0 }

/-- The distinct failure messages of `check_safety_conditions`, by kind
(the formatted text embeds the metric values, which are display-only). -/
inductive SafetyReason where
  | missingTierSpecs
  | cpuHigh
  | memoryHigh
  | memoryThresholdUnknown
  | iopsHigh
  | connectionsHigh
  deriving Repr, DecidableEq

/-- `ScaleDownMonitor.check_safety_conditions` (lines 277–314), with the
module constants `CPU_THRESHOLD = 35.0`, `MEMORY_THRESHOLD_PERCENT = 0.6`,
`IOPS_THRESHOLD_PERCENT = 0.6`, `CONNECTIONS_THRESHOLD_PERCENT = 0.5`.
Reasons are accumulated in source order: CPU, memory, IOPS, connections. -/
def check_safety_conditions (baseTier currentTier : String)
    (metrics : Metrics) (tierSpecs : TierSpecs) : Bool × List SafetyReason :=
  match tierSpecs.lookup baseTier, tierSpecs.lookup currentTier with
  | some baseSpec, some currentSpec =>
    let cpuReasons :=
      if (35 : ℚ) ≤ metrics.cpu_avg then [SafetyReason.cpuHigh] else []
    let memReasons :=
      if 0 < currentSpec.ram then
        (if currentSpec.ram * (6 / 10) ≤ metrics.memory_avg_gb
          then [SafetyReason.memoryHigh] else [])
      else [SafetyReason.memoryThresholdUnknown]
    let iopsReasons :=
      if (currentSpec.iops : ℚ) * (6 / 10) ≤ metrics.iops_avg
        then [SafetyReason.iopsHigh] else []
    let connReasons :=
      if (baseSpec.connection : ℚ) * (1 / 2) ≤ metrics.connections_avg
        then [SafetyReason.connectionsHigh] else []
    let reasons := cpuReasons ++ memReasons ++ iopsReasons ++ connReasons
    (reasons.isEmpty, reasons)
  | _, _ => (false, [SafetyReason.missingTierSpecs])

/-- Python `int(x)` on a float: truncation toward zero.  For `q = num/den`
with `den > 0`, Lean's `Int.div` (T-division) is exactly that truncation. -/
def pyTruncInt (q : ℚ) : Int :=
  q.num.tdiv (q.den : Int)

/-- One entry of the `shard_updates` list handed to
`update_cluster_shards`: the dict `{'shard_index': ..., 'current_disk_size': ...}`
returned by `check_and_scale_down_shard`. -/
structure ShardUpdate where
  shard_index : Int
  current_disk_size : ℚ
  deriving Repr, DecidableEq

/-- The `electableSpecs` mutation of `update_cluster_shards` (lines
455–460): set `instanceSize` to the target tier, `nodeCount` to
`DEFAULT_NODE_COUNT = 3`, `diskSizeGB` to `int(current_disk_size)`, pop
`diskIOPS`, set `ebsVolumeType` to `"STANDARD"`. -/
def apply_electable (targetTier : String) (diskSize : ℚ)
    (es : ElectableSpecs) : ElectableSpecs :=
  { es with
    instanceSize := some targetTier
    nodeCount := some 3
    diskSizeGB := some ((pyTruncInt diskSize : Int) : ℚ)
    diskIOPS := none
    ebsVolumeType := some "STANDARD" }

/-- The per-region effect of one shard update: mutate `electableSpecs` if
the key is present, otherwise leave the region config alone (the source
prints an error and `continue`s). -/
def apply_region_change (targetTier : String) (diskSize : ℚ)
    (rc : RegionConfig) : RegionConfig :=
  match rc.electableSpecs with
  | some es => { rc with electableSpecs := some (apply_electable targetTier diskSize es) }
  | none => rc

/-- The in-place mutation of one spec by one shard update, written back to
wherever `_get_region_config` located the first region config: the head of
a truthy `regionConfigs` list, else the first value of a truthy legacy
`regionsConfig` mapping, else nowhere. -/
def update_one_spec (targetTier : String) (diskSize : ℚ)
    (spec : ShardSpec) : ShardSpec :=
  match spec.regionConfigs.getD [] with
  | rc :: rest =>
    { spec with regionConfigs := some (apply_region_change targetTier diskSize rc :: rest) }
  | [] =>
    match spec.regionsConfig.getD [] with
    | (name, rc) :: rest =>
      { spec with regionsConfig := some ((name, apply_region_change targetTier diskSize rc) :: rest) }
    | [] => spec

/-- Replace the element at position `n` by `f` of it; out-of-range indices
leave the list unchanged. -/
def setAt {α : Type} : List α → Nat → (α → α) → List α
  | [], _, _ => []
  | x :: xs, 0, f => f x :: xs
  | x :: xs, Nat.succ n, f => x :: setAt xs n f

/-- One iteration of the `for update in shard_updates` loop (lines
441–466): skip indices outside `[0, len)`, otherwise mutate the located
region config of that spec in place. -/
def apply_shard_update (targetTier : String) (specs : List ShardSpec)
    (u : ShardUpdate) : List ShardSpec :=
  if u.shard_index < 0 ∨ (specs.length : Int) ≤ u.shard_index then specs
  else setAt specs u.shard_index.toNat (update_one_spec targetTier u.current_disk_size)

/-- `cluster_info.get("providerSettings", {}).get("providerName", "AWS")`. -/
def provider_name_of (ci : ClusterInfo) : String :=
  (ci.providerSettings.bind (fun p => p.providerName)).getD "AWS"

/-- The per-spec normalization of the `for spec in replication_specs` loop
(lines 420–438): pop `id`/`numShards`/`zoneName`, and when the spec holds
the legacy mapping form and no `regionConfigs` key at all, flatten the
mapping into a `regionConfigs` list (inheriting `priority` with default 7,
attaching the region name and the cluster-level provider name, and copying
`electableSpecs`/`analyticsSpecs`/`readOnlySpecs`/`autoScaling` when
present). -/
def normalize_spec (providerName : String) (spec : ShardSpec) : ShardSpec :=
  let s := { spec with id := none, numShards := none, zoneName := none }
  if s.regionsConfig.isSome ∧ s.regionConfigs.isNone then
    match s.regionsConfig with
    | some regions =>
      let rcs := regions.map fun nr =>
        { priority := some (nr.2.priority.getD 7)
          regionName := some nr.1
          providerName := some providerName
          electableSpecs := nr.2.electableSpecs
          analyticsSpecs := nr.2.analyticsSpecs
          readOnlySpecs := nr.2.readOnlySpecs
          autoScaling := nr.2.autoScaling
          effectiveElectableSpecs := none : RegionConfig }
      { s with regionsConfig := none, regionConfigs := some rcs }
    | none => s
  else s

/-- The `replicationSpecs` list that `update_cluster_shards` sends in its
PATCH body, with the two shard-count guards of lines 410 and 470: `none`
models `return False` before any PATCH is submitted.  The deepcopy at line
392 makes the first guard compare the payload list against itself; the
cluster-level read-only-field stripping (lines 396–417) never touches
`replicationSpecs`. -/
def build_update_payload (ci : ClusterInfo) (shardUpdates : List ShardUpdate)
    (targetTier : String) : Option (List ShardSpec) :=
  if ci.replicationSpecs.length ≠ ci.replicationSpecs.length then none
  else if (shardUpdates.foldl (apply_shard_update targetTier)
      (ci.replicationSpecs.map (normalize_spec (provider_name_of ci)))).length ≠
      ci.replicationSpecs.length then none
  else some (shardUpdates.foldl (apply_shard_update targetTier)
      (ci.replicationSpecs.map (normalize_spec (provider_name_of ci))))

/-- `ScaleDownMonitor.update_cluster_shards` (lines 383–489) as a
success/failure outcome: `false` when `get_cluster_details` returned
nothing, or a shard-count guard fired (no PATCH submitted), or the PATCH
itself was rejected (`patchAccepted = false` models `raise_for_status`
throwing); `true` only when the payload was built and the PATCH accepted. -/
def update_cluster_shards (ci : Option ClusterInfo)
    (shardUpdates : List ShardUpdate) (targetTier : String)
    (patchAccepted : Bool) : Bool :=
  match ci with
  | none => false
  | some c =>
    match build_update_payload c shardUpdates targetTier with
    | none => false
    | some _ => patchAccepted

/-- The preserved disk size read at lines 602–607: default `80.0`,
overridden by `effectiveElectableSpecs.diskSizeGB` when the region config
and that field exist. -/
def current_disk_size_of (ci : ClusterInfo) (shardIndex : Int) : ℚ :=
  match get_region_config ci shardIndex with
  | none => 80
  | some rc => (rc.effectiveElectableSpecs.bind (fun es => es.diskSizeGB)).getD 80

/-- The terminal outcomes of `check_and_scale_down_shard`, in the order
the source short-circuits.  All constructors except `eligible` correspond
to `return None`; `recordAndWait` is the `return None` that first calls
`update_config_timestamp` (the new-scale-up-event branch). -/
inductive ShardDecision where
  | noDetails
  | unknownTier
  | atBaseTier
  | otherTier
  | missingTierSpec
  | autoscaleBlocked (reasons : List AutoscaleReason)
  | recordAndWait
  | waitDwell
  | noPrimaryProcess
  | failedSafety (reasons : List SafetyReason)
  | eligible (pending : ShardUpdate)
  deriving Repr, DecidableEq

/-- `ScaleDownMonitor.check_and_scale_down_shard` (lines 513–609).  The
network-dependent steps become explicit inputs: `ci` is the
`get_cluster_details` result, `primaryFound` whether
`get_cluster_process_for_shard` found a process, `metrics` the
`get_cluster_metrics` summary.  Branch order follows the source exactly. -/
def check_and_scale_down_shard (ci : Option ClusterInfo) (shardIndex : Int)
    (baseTier scaleUpTier : String) (lastTierUpdate : Option ℚ)
    (minHours : Int) (now : ℚ) (tierSpecs : TierSpecs)
    (primaryFound : Bool) (metrics : Metrics) : ShardDecision :=
  match ci with
  | none => ShardDecision.noDetails
  | some c =>
    match check_shard_tier c shardIndex with
    | none => ShardDecision.unknownTier
    | some currentTier =>
      if currentTier = "" then ShardDecision.unknownTier
      else if currentTier = baseTier then ShardDecision.atBaseTier
      else if currentTier ≠ scaleUpTier then ShardDecision.otherTier
      else if (tierSpecs.lookup baseTier).isNone then ShardDecision.missingTierSpec
      else if (check_autoscale_limits c shardIndex baseTier scaleUpTier).1 = false then
        ShardDecision.autoscaleBlocked (check_autoscale_limits c shardIndex baseTier scaleUpTier).2
      else if (is_timestamp_very_old now lastTierUpdate 24).1 = true then
        ShardDecision.recordAndWait
      else if (check_time_since_update now lastTierUpdate minHours).1 = false then
        ShardDecision.waitDwell
      else if primaryFound = false then ShardDecision.noPrimaryProcess
      else if (check_safety_conditions baseTier currentTier metrics tierSpecs).1 = false then
        ShardDecision.failedSafety (check_safety_conditions baseTier currentTier metrics tierSpecs).2
      else ShardDecision.eligible ⟨shardIndex, current_disk_size_of c shardIndex⟩

/-- Per-shard inputs for one `monitor_cluster` run: one entry of
`shards_config` (its `shardIndex` and parsed `lastTierUpdate`) together
with the network observations its evaluation will see. -/
structure ShardEvalInput where
  shardIndex : Int
  ci : Option ClusterInfo
  lastTierUpdate : Option ℚ
  primaryFound : Bool
  metrics : Metrics
  deriving Repr, DecidableEq

/-- Observable outcome of `monitor_cluster`: the collected eligible
updates, the timestamp writes from `RECORD_AND_WAIT` branches (which
happen during evaluation, before any PATCH), whether the single PATCH
succeeded, and the post-PATCH timestamp writes for the batch. -/
structure MonitorOutcome where
  shardUpdates : List ShardUpdate
  recordWrites : List Int
  patchOk : Bool
  batchTimestampWrites : List Int
  deriving Repr, DecidableEq

/-- `ScaleDownMonitor.monitor_cluster` (lines 611–643): evaluate every
shard, collect eligible updates, and only if there are any, submit one
PATCH (`patchClusterInfo` is the re-fetch inside `update_cluster_shards`,
`patchAccepted` the PATCH outcome); `update_config_timestamp` runs for the
batch only in the success branch. -/
def monitor_cluster (baseTier scaleUpTier : String)
    (shards : List ShardEvalInput) (minHours : Int) (now : ℚ)
    (tierSpecs : TierSpecs) (patchClusterInfo : Option ClusterInfo)
    (patchAccepted : Bool) : MonitorOutcome :=
  let decisions := shards.map fun s =>
    (s, check_and_scale_down_shard s.ci s.shardIndex baseTier scaleUpTier
        s.lastTierUpdate minHours now tierSpecs s.primaryFound s.metrics)
  let recordWrites := decisions.filterMap fun sd =>
    match sd.2 with
    | ShardDecision.recordAndWait => some sd.1.shardIndex
    | _ => none
  let shardUpdates := decisions.filterMap fun sd =>
    match sd.2 with
    | ShardDecision.eligible p => some p
    | _ => none
  if shardUpdates.isEmpty then
    { shardUpdates := shardUpdates, recordWrites := recordWrites
      patchOk := false, batchTimestampWrites := [] }
  else
    let ok := update_cluster_shards patchClusterInfo shardUpdates baseTier patchAccepted
    { shardUpdates := shardUpdates, recordWrites := recordWrites
      patchOk := ok
      batchTimestampWrites :=
        if ok then shardUpdates.map (fun u => u.shard_index) else [] }

/-- Projection used to state the autoscaling frame property: the
`autoScaling` values of every region configuration a spec holds, in both
encodings, in order. -/
def all_auto_scalings (s : ShardSpec) : List (Option AutoScaling) :=
  (s.regionConfigs.getD []).map (fun rc => rc.autoScaling) ++
  (s.regionsConfig.getD []).map (fun nr => nr.2.autoScaling)

/-- Projection used to state the mutation frame property: erase the
`electableSpecs` of exactly the region config that `_get_region_config`
would locate (the only place a shard update may write). -/
def erase_first_electable (s : ShardSpec) : ShardSpec :=
  match s.regionConfigs.getD [] with
  | rc :: rest =>
    { s with regionConfigs := some ({ rc with electableSpecs := none } :: rest) }
  | [] =>
    match s.regionsConfig.getD [] with
    | (name, rc) :: rest =>
      { s with regionsConfig := some ((name, { rc with electableSpecs := none }) :: rest) }
    | [] => s

/-! ## Helper lemmas -/

theorem mem_of_mem_dropWhile {α : Type} {p : α → Bool} :
    ∀ {l : List α} {c : α}, c ∈ l.dropWhile p → c ∈ l := by
  intro l
  induction l with
  | nil => intro c hc; simp [List.dropWhile] at hc
  | cons x xs ih =>
    intro c hc
    rw [List.dropWhile_cons] at hc
    split at hc
    · exact List.mem_cons_of_mem _ (ih hc)
    · exact hc

theorem mem_of_mem_trimWs {l : List Char} {c : Char} (hc : c ∈ trimWs l) : c ∈ l := by
  unfold trimWs at hc
  rw [List.mem_reverse] at hc
  have hc₁ := mem_of_mem_dropWhile hc
  rw [List.mem_reverse] at hc₁
  exact mem_of_mem_dropWhile hc₁

theorem pyIntL_nonneg {l : List Char} (h : '-' ∉ l) :
    ∀ n : Int, pyIntL l = some n → 0 ≤ n := by
  intro n hn
  unfold pyIntL at hn
  cases hm : trimWs l with
  | nil => rw [hm] at hn; cases hn
  | cons c rest =>
    rw [hm] at hn
    dsimp only at hn
    have hcne : c ≠ '-' := by
      intro hcc
      exact h (mem_of_mem_trimWs (by rw [hm, hcc]; exact List.mem_cons_self _ _))
    rw [if_neg hcne] at hn
    by_cases hcp : c = '+'
    · rw [if_pos hcp] at hn
      cases hd : digitsVal rest with
      | none => rw [hd] at hn; cases hn
      | some m =>
        rw [hd] at hn
        cases hn
        exact Int.natCast_nonneg m
    · rw [if_neg hcp] at hn
      cases hd : digitsVal (c :: rest) with
      | none => rw [hd] at hn; cases hn
      | some m =>
        rw [hd] at hn
        cases hn
        exact Int.natCast_nonneg m

/-! ## Claim theorems: staleness gates, tier arithmetic, safety evaluator -/

/-- Claim C3: `is_timestamp_very_old` is true exactly when the stored
timestamp is absent/unparseable (modelled as `none`) or its age is at
least 24 hours, and `check_time_since_update` is true exactly when it is
absent/unparseable or the elapsed hours reach `min_hours`, equality
included. -/
theorem staleness_gates_iff (now : ℚ) (lastTierUpdate : Option ℚ) (minHours : Int) :
    ((is_timestamp_very_old now lastTierUpdate 24).1 = true ↔
      lastTierUpdate = none ∨
        ∃ t, lastTierUpdate = some t ∧ (24 : ℚ) ≤ (now - t) / 3600) ∧
    ((check_time_since_update now lastTierUpdate minHours).1 = true ↔
      lastTierUpdate = none ∨
        ∃ t, lastTierUpdate = some t ∧ (minHours : ℚ) ≤ (now - t) / 3600) := by
  cases lastTierUpdate with
  | none => simp [is_timestamp_very_old, check_time_since_update]
  | some t => simp [is_timestamp_very_old, check_time_since_update]

/-- Claim C8: the per-shard `electableSpecs` mutation is idempotent at the
`RegionConfig` level — applying it twice with the same target tier and the
same preserved disk size equals applying it once. -/
theorem apply_region_change_idempotent (targetTier : String) (diskSize : ℚ)
    (rc : RegionConfig) :
    apply_region_change targetTier diskSize (apply_region_change targetTier diskSize rc) =
      apply_region_change targetTier diskSize rc := by
  cases h : rc.electableSpecs <;>
    simp [apply_region_change, apply_electable, h]

/-- Claim C6 counterexample: on the input string `"-5"` the conversion
returns `-5`, a negative integer, because Python `int` accepts a sign; the
claim's "non-negative for every input string" is therefore false. -/
theorem tier_to_number_negative_counterexample :
    tier_to_number "-5" = -5 ∧ tier_to_number "-5" < 0 := by decide

/-- Claim C6 (amended): the conversion is total and never throws, returns
0 on empty input, strips a one-letter `M`/`R` class prefix and parses the
remainder as an integer with 0 on parse failure; the result is
non-negative for every input string that contains no minus sign (inputs
with a minus sign can parse to a negative integer). -/
theorem tier_to_number_total_nonneg :
    tier_to_number "" = 0 ∧
    ∀ s : String, '-' ∉ s.data → 0 ≤ tier_to_number s := by
  refine ⟨by decide, ?_⟩
  intro s hs
  obtain ⟨l⟩ := s
  cases l with
  | nil => decide
  | cons c rest =>
    have hrest : '-' ∉ rest := fun hm => hs (List.mem_cons_of_mem _ hm)
    show 0 ≤ tier_to_number ⟨c :: rest⟩
    unfold tier_to_number
    simp only
    by_cases hc : c.toUpper = 'M' ∨ c.toUpper = 'R'
    · rw [if_pos hc]
      cases hp : pyIntL rest with
      | none => simp
      | some n => simpa using pyIntL_nonneg hrest n hp
    · rw [if_neg hc]
      cases hp : pyIntL (c :: rest) with
      | none => simp
      | some n => simpa using pyIntL_nonneg hs n hp

/-- Claim C5 counterexample: a tier-spec table that lists both tiers but
carries a zero `iops` for the current tier and a zero `connection` limit
for the base tier makes the zero-valued metric summary fail: the IOPS and
connections thresholds are then `0`, and `0 >= 0` triggers both reasons. -/
theorem zero_metrics_fail_counterexample :
    check_safety_conditions "M10" "M30" default_metrics
        [("M10", ⟨4, 0, 100⟩), ("M30", ⟨8, 350, 0⟩)] =
      (false, [SafetyReason.iopsHigh, SafetyReason.connectionsHigh]) := by
  simp only [check_safety_conditions, List.lookup, String.reduceBEq, default_metrics]
  norm_num

/-- Claim C5 (amended): whenever both tiers are present in the table and
the current tier's `ram` and `iops` and the base tier's `connection` limit
are positive (so every derived threshold is strictly positive), the
all-zero metric summary passes every check, returning `(true, [])`. -/
theorem zero_metrics_pass (tierSpecs : TierSpecs) (baseTier currentTier : String)
    (baseSpec currentSpec : TierSpec)
    (hb : tierSpecs.lookup baseTier = some baseSpec)
    (hc : tierSpecs.lookup currentTier = some currentSpec)
    (hram : 0 < currentSpec.ram) (hiops : 0 < currentSpec.iops)
    (hconn : 0 < baseSpec.connection) :
    check_safety_conditions baseTier currentTier default_metrics tierSpecs =
      (true, []) := by
  have h1 : ¬ ((35 : ℚ) ≤ default_metrics.cpu_avg) := by norm_num [default_metrics]
  have h2 : ¬ (currentSpec.ram * (6 / 10) ≤ default_metrics.memory_avg_gb) := by
    have : (0 : ℚ) < currentSpec.ram * (6 / 10) := mul_pos hram (by norm_num)
    simp only [default_metrics]
    linarith
  have h3 : ¬ ((currentSpec.iops : ℚ) * (6 / 10) ≤ default_metrics.iops_avg) := by
    have : (0 : ℚ) < (currentSpec.iops : ℚ) * (6 / 10) :=
      mul_pos (by exact_mod_cast hiops) (by norm_num)
    simp only [default_metrics]
    linarith
  have h4 : ¬ ((baseSpec.connection : ℚ) * (1 / 2) ≤ default_metrics.connections_avg) := by
    have : (0 : ℚ) < (baseSpec.connection : ℚ) * (1 / 2) :=
      mul_pos (by exact_mod_cast hconn) (by norm_num)
    simp only [default_metrics]
    linarith
  simp only [check_safety_conditions, hb, hc, if_neg h1, if_pos hram, if_neg h2,
    if_neg h3, if_neg h4]
  simp

/-- Witness for the amended C5 claim at a concrete positive tier table. -/
theorem zero_metrics_pass_witness :
    check_safety_conditions "M30" "M40" default_metrics
        [("M30", ⟨8, 3000, 3000⟩), ("M40", ⟨16, 6000, 6000⟩)] = (true, []) :=
  zero_metrics_pass _ "M30" "M40" ⟨8, 3000, 3000⟩ ⟨16, 6000, 6000⟩
    (by simp [List.lookup]) (by simp [List.lookup])
    (by norm_num) (by decide) (by decide)

theorem ite_singleton_mono {P P' : Prop} [Decidable P] [Decidable P']
    (him : P → P') (r0 r : SafetyReason)
    (h : r ∈ (if P then [r0] else ([] : List SafetyReason))) :
    r ∈ (if P' then [r0] else []) := by
  by_cases hp : P
  · rw [if_pos hp] at h
    rw [if_pos (him hp)]
    exact h
  · rw [if_neg hp] at h
    cases h

theorem safety_reasons_subset (baseTier currentTier : String)
    (m m' : Metrics) (tierSpecs : TierSpecs)
    (hcpu : m.cpu_avg ≤ m'.cpu_avg) (hmem : m.memory_avg_gb ≤ m'.memory_avg_gb)
    (hiops : m.iops_avg ≤ m'.iops_avg) (hconn : m.connections_avg ≤ m'.connections_avg) :
    ∀ r, r ∈ (check_safety_conditions baseTier currentTier m tierSpecs).2 →
      r ∈ (check_safety_conditions baseTier currentTier m' tierSpecs).2 := by
  intro r hr
  unfold check_safety_conditions at hr ⊢
  cases hb : tierSpecs.lookup baseTier with
  | none =>
    rw [hb] at hr
    exact hr
  | some bs =>
    cases hc2 : tierSpecs.lookup currentTier with
    | none =>
      rw [hb, hc2] at hr
      exact hr
    | some cs =>
      rw [hb, hc2] at hr
      dsimp only at hr ⊢
      simp only [List.mem_append] at hr ⊢
      rcases hr with ((h | h) | h) | h
      · exact Or.inl (Or.inl (Or.inl
          (ite_singleton_mono (fun hx => le_trans hx hcpu) _ r h)))
      · refine Or.inl (Or.inl (Or.inr ?_))
        by_cases hram : 0 < cs.ram
        · rw [if_pos hram] at h ⊢
          exact ite_singleton_mono (fun hx => le_trans hx hmem) _ r h
        · rw [if_neg hram] at h ⊢
          exact h
      · exact Or.inl (Or.inr
          (ite_singleton_mono (fun hx => le_trans hx hiops) _ r h))
      · exact Or.inr
          (ite_singleton_mono (fun hx => le_trans hx hconn) _ r h)

theorem safety_fst_eq_isEmpty (baseTier currentTier : String)
    (m : Metrics) (tierSpecs : TierSpecs) :
    (check_safety_conditions baseTier currentTier m tierSpecs).1 =
      (check_safety_conditions baseTier currentTier m tierSpecs).2.isEmpty := by
  unfold check_safety_conditions
  cases tierSpecs.lookup baseTier with
  | none => rfl
  | some bs =>
    cases tierSpecs.lookup currentTier with
    | none => rfl
    | some cs => rfl

/-- Claim C9: the safety evaluator is monotone in each metric mean:
raising any metric (the others held fixed, or also raised) can only
preserve or add triggered reasons — modelled by their kind, the formatted
message text being display-only — and can never turn an unsafe verdict
into a safe one. -/
theorem check_safety_conditions_monotone (baseTier currentTier : String)
    (m m' : Metrics) (tierSpecs : TierSpecs)
    (hcpu : m.cpu_avg ≤ m'.cpu_avg) (hmem : m.memory_avg_gb ≤ m'.memory_avg_gb)
    (hiops : m.iops_avg ≤ m'.iops_avg) (hconn : m.connections_avg ≤ m'.connections_avg) :
    (∀ r, r ∈ (check_safety_conditions baseTier currentTier m tierSpecs).2 →
      r ∈ (check_safety_conditions baseTier currentTier m' tierSpecs).2) ∧
    ((check_safety_conditions baseTier currentTier m' tierSpecs).1 = true →
      (check_safety_conditions baseTier currentTier m tierSpecs).1 = true) := by
  have hsub := safety_reasons_subset baseTier currentTier m m' tierSpecs
    hcpu hmem hiops hconn
  refine ⟨hsub, ?_⟩
  intro h1
  rw [safety_fst_eq_isEmpty] at h1 ⊢
  rw [List.isEmpty_iff] at h1 ⊢
  by_contra hne
  obtain ⟨a, ha⟩ := List.exists_mem_of_ne_nil _ hne
  have hmem2 := hsub a ha
  rw [h1] at hmem2
  cases hmem2

/-- Witness for C9 at concrete metrics: raising the CPU mean from a
failing 40 to 50 keeps the verdict unsafe and keeps the CPU reason. -/
theorem check_safety_conditions_monotone_witness :
    (SafetyReason.cpuHigh ∈ (check_safety_conditions "M30" "M40"
        { default_metrics with cpu_avg := 50 }
        [("M30", ⟨8, 3000, 3000⟩), ("M40", ⟨16, 6000, 6000⟩)]).2) ∧
    ((check_safety_conditions "M30" "M40"
        { default_metrics with cpu_avg := 50 }
        [("M30", ⟨8, 3000, 3000⟩), ("M40", ⟨16, 6000, 6000⟩)]).1 = true →
      (check_safety_conditions "M30" "M40"
        { default_metrics with cpu_avg := 40 }
        [("M30", ⟨8, 3000, 3000⟩), ("M40", ⟨16, 6000, 6000⟩)]).1 = true) := by
  have h := check_safety_conditions_monotone "M30" "M40"
    { default_metrics with cpu_avg := 40 }
    { default_metrics with cpu_avg := 50 }
    [("M30", ⟨8, 3000, 3000⟩), ("M40", ⟨16, 6000, 6000⟩)]
    (by norm_num [default_metrics]) (by norm_num [default_metrics])
    (by norm_num [default_metrics]) (by norm_num [default_metrics])
  refine ⟨?_, h.2⟩
  refine h.1 SafetyReason.cpuHigh ?_
  simp only [check_safety_conditions, List.lookup, String.reduceBEq, default_metrics]
  norm_num

/-! ## List update lemmas -/

theorem length_setAt {α : Type} (l : List α) (n : Nat) (f : α → α) :
    (setAt l n f).length = l.length := by
  induction l generalizing n with
  | nil => rfl
  | cons x xs ih =>
    cases n with
    | zero => rfl
    | succ k => simp [setAt, ih]

theorem get?_setAt_ne {α : Type} (l : List α) (n m : Nat) (f : α → α)
    (h : n ≠ m) : (setAt l n f).get? m = l.get? m := by
  induction l generalizing n m with
  | nil => rfl
  | cons x xs ih =>
    cases n with
    | zero =>
      cases m with
      | zero => exact absurd rfl h
      | succ j => rfl
    | succ k =>
      cases m with
      | zero => rfl
      | succ j =>
        simp only [setAt, List.get?_cons_succ]
        exact ih k j (fun hh => h (by rw [hh]))

theorem get?_setAt_self {α : Type} (l : List α) (n : Nat) (f : α → α) :
    (setAt l n f).get? n = (l.get? n).map f := by
  induction l generalizing n with
  | nil => rfl
  | cons x xs ih =>
    cases n with
    | zero => rfl
    | succ k =>
      simp only [setAt, List.get?_cons_succ]
      exact ih k

theorem length_apply_shard_update (tt : String) (specs : List ShardSpec)
    (u : ShardUpdate) : (apply_shard_update tt specs u).length = specs.length := by
  unfold apply_shard_update
  split
  · rfl
  · exact length_setAt _ _ _

theorem length_foldl_apply (tt : String) :
    ∀ (us : List ShardUpdate) (specs : List ShardSpec),
      (us.foldl (apply_shard_update tt) specs).length = specs.length := by
  intro us
  induction us with
  | nil => intro specs; rfl
  | cons u us ih =>
    intro specs
    rw [List.foldl_cons, ih, length_apply_shard_update]

/-! ## Frame lemmas for the shard mutation -/

theorem autoScaling_apply_region_change (tt : String) (d : ℚ) (rc : RegionConfig) :
    (apply_region_change tt d rc).autoScaling = rc.autoScaling := by
  cases h : rc.electableSpecs <;> simp [apply_region_change, h]

theorem all_auto_scalings_update_one (tt : String) (d : ℚ) (s : ShardSpec) :
    all_auto_scalings (update_one_spec tt d s) = all_auto_scalings s := by
  cases hrc : s.regionConfigs with
  | some rcl =>
    cases rcl with
    | cons rc rest =>
      simp [update_one_spec, all_auto_scalings, hrc, autoScaling_apply_region_change]
    | nil =>
      cases hrs : s.regionsConfig with
      | none => simp [update_one_spec, all_auto_scalings, hrc, hrs]
      | some prl =>
        cases prl with
        | nil => simp [update_one_spec, all_auto_scalings, hrc, hrs]
        | cons pr prest =>
          simp [update_one_spec, all_auto_scalings, hrc, hrs,
            autoScaling_apply_region_change]
  | none =>
    cases hrs : s.regionsConfig with
    | none => simp [update_one_spec, all_auto_scalings, hrc, hrs]
    | some prl =>
      cases prl with
      | nil => simp [update_one_spec, all_auto_scalings, hrc, hrs]
      | cons pr prest =>
        simp [update_one_spec, all_auto_scalings, hrc, hrs,
          autoScaling_apply_region_change]

theorem erase_apply_region_change (tt : String) (d : ℚ) (rc : RegionConfig) :
    ({ apply_region_change tt d rc with electableSpecs := none } : RegionConfig) =
      { rc with electableSpecs := none } := by
  cases rc
  rename_i es _ _ _ _
  cases es <;> simp [apply_region_change]

theorem erase_first_electable_update_one (tt : String) (d : ℚ) (s : ShardSpec) :
    erase_first_electable (update_one_spec tt d s) = erase_first_electable s := by
  cases hrc : s.regionConfigs with
  | some rcl =>
    cases rcl with
    | cons rc rest =>
      simp [update_one_spec, erase_first_electable, hrc, erase_apply_region_change]
    | nil =>
      cases hrs : s.regionsConfig with
      | none => simp [update_one_spec, erase_first_electable, hrc, hrs]
      | some prl =>
        cases prl with
        | nil => simp [update_one_spec, erase_first_electable, hrc, hrs]
        | cons pr prest =>
          simp [update_one_spec, erase_first_electable, hrc, hrs,
            erase_apply_region_change]
  | none =>
    cases hrs : s.regionsConfig with
    | none => simp [update_one_spec, erase_first_electable, hrc, hrs]
    | some prl =>
      cases prl with
      | nil => simp [update_one_spec, erase_first_electable, hrc, hrs]
      | cons pr prest =>
        simp [update_one_spec, erase_first_electable, hrc, hrs,
          erase_apply_region_change]

theorem get?_foldl_proj {β : Type} (tt : String) (proj : ShardSpec → β)
    (hstep : ∀ (d : ℚ) (s : ShardSpec), proj (update_one_spec tt d s) = proj s) :
    ∀ (us : List ShardUpdate) (specs : List ShardSpec) (i : Nat),
      ((us.foldl (apply_shard_update tt) specs).get? i).map proj =
        (specs.get? i).map proj := by
  intro us
  induction us with
  | nil => intro specs i; rfl
  | cons u us ih =>
    intro specs i
    rw [List.foldl_cons, ih]
    unfold apply_shard_update
    split
    · rfl
    · by_cases hi : u.shard_index.toNat = i
      · subst hi
        rw [get?_setAt_self]
        cases hs : specs.get? u.shard_index.toNat with
        | none => rfl
        | some s => simp [hstep]
      · rw [get?_setAt_ne _ _ _ _ hi]

theorem get?_foldl_not_targeted (tt : String) :
    ∀ (us : List ShardUpdate) (specs : List ShardSpec) (i : Nat),
      (∀ u ∈ us, u.shard_index ≠ (i : Int)) →
      (us.foldl (apply_shard_update tt) specs).get? i = specs.get? i := by
  intro us
  induction us with
  | nil => intro specs i _; rfl
  | cons u us ih =>
    intro specs i hmiss
    rw [List.foldl_cons, ih _ _ (fun v hv => hmiss v (List.mem_cons_of_mem _ hv))]
    unfold apply_shard_update
    split
    · rfl
    · rename_i hrange
      apply get?_setAt_ne
      intro hEq
      apply hmiss u (List.mem_cons_self u us)
      have h0 : 0 ≤ u.shard_index := not_lt.mp (fun hlt => hrange (Or.inl hlt))
      rw [← Int.toNat_of_nonneg h0, hEq]

theorem all_auto_scalings_normalize (pn : String) (s : ShardSpec) :
    all_auto_scalings (normalize_spec pn s) = all_auto_scalings s := by
  cases hrc : s.regionConfigs with
  | some rcl => simp [normalize_spec, all_auto_scalings, hrc]
  | none =>
    cases hrs : s.regionsConfig with
    | none => simp [normalize_spec, all_auto_scalings, hrc, hrs]
    | some regions =>
      simp [normalize_spec, all_auto_scalings, hrc, hrs, List.map_map]

theorem build_update_payload_eq (ci : ClusterInfo) (us : List ShardUpdate)
    (tt : String) :
    build_update_payload ci us tt =
      some (us.foldl (apply_shard_update tt)
        (ci.replicationSpecs.map (normalize_spec (provider_name_of ci)))) := by
  unfold build_update_payload
  split
  · rename_i h
    exact absurd rfl h
  · split
    · rename_i h
      exfalso
      apply h
      rw [length_foldl_apply, List.length_map]
    · rfl

/-- Claim C1: for every cluster document (either legacy mapping or flat
region encoding, any number of shards), `update_cluster_shards` builds its
normalized payload successfully with exactly as many `replicationSpecs`
entries as were read, each output entry derived from the input entry at
the same position (witnessed by its ordered region fingerprint).  The
count guards of lines 410 and 470 — whose failure branch is `return False`
before the PATCH — therefore never fire: `update_cluster_shards` always
reaches the PATCH and returns exactly its outcome. -/
theorem update_payload_shard_count (ci : ClusterInfo) (us : List ShardUpdate)
    (tt : String) :
    (∃ specs, build_update_payload ci us tt = some specs ∧
      specs.length = ci.replicationSpecs.length ∧
      ∀ i : Nat, (specs.get? i).map all_auto_scalings =
        (ci.replicationSpecs.get? i).map all_auto_scalings) ∧
    (∀ pa : Bool, update_cluster_shards (some ci) us tt pa = pa) := by
  constructor
  · refine ⟨_, build_update_payload_eq ci us tt, ?_, ?_⟩
    · rw [length_foldl_apply, List.length_map]
    · intro i
      rw [get?_foldl_proj tt all_auto_scalings
        (fun d s => all_auto_scalings_update_one tt d s), List.get?_map]
      cases ci.replicationSpecs.get? i with
      | none => rfl
      | some s => simp [all_auto_scalings_normalize]
  · intro pa
    simp only [update_cluster_shards, build_update_payload_eq]

/-- Claim C2: the built payload never rewrites any region's `autoScaling`
(every shard's ordered autoscaling fingerprint equals the one read);
apart from the `electableSpecs` of the single region config located by
`_get_region_config`, every targeted shard is exactly its normalized
input (the `erase_first_electable` projections agree); and every shard
not named by any update is exactly its normalized input. -/
theorem update_payload_frame (ci : ClusterInfo) (us : List ShardUpdate)
    (tt : String) :
    ∃ specs, build_update_payload ci us tt = some specs ∧
      (∀ i : Nat, (specs.get? i).map all_auto_scalings =
        (ci.replicationSpecs.get? i).map all_auto_scalings) ∧
      (∀ i : Nat, (specs.get? i).map erase_first_electable =
        ((ci.replicationSpecs.map (normalize_spec (provider_name_of ci))).get? i).map
          erase_first_electable) ∧
      (∀ i : Nat, (∀ u ∈ us, u.shard_index ≠ (i : Int)) →
        specs.get? i =
          (ci.replicationSpecs.map (normalize_spec (provider_name_of ci))).get? i) := by
  refine ⟨_, build_update_payload_eq ci us tt, ?_, ?_, ?_⟩
  · intro i
    rw [get?_foldl_proj tt all_auto_scalings
      (fun d s => all_auto_scalings_update_one tt d s), List.get?_map]
    cases ci.replicationSpecs.get? i with
    | none => rfl
    | some s => simp [all_auto_scalings_normalize]
  · intro i
    exact get?_foldl_proj tt erase_first_electable
      (fun d s => erase_first_electable_update_one tt d s) us _ i
  · intro i hmiss
    exact get?_foldl_not_targeted tt us _ i hmiss

/-! ## Decision state machine -/

/-- Claim C4: a shard observed at the scale-up tier that passes the
tier-spec and autoscale-bounds gates and whose last-change timestamp is at
least 24 hours old (or absent/unparseable) is classified
`RECORD_AND_WAIT` — the new-event gate fires before the dwell gate is even
consulted, for every `minHours`, every metric summary, and regardless of
whether a primary process was found. -/
theorem new_event_precedes_dwell (c : ClusterInfo) (shardIndex : Int)
    (baseTier scaleUpTier : String) (lastTierUpdate : Option ℚ)
    (minHours : Int) (now : ℚ) (tierSpecs : TierSpecs)
    (primaryFound : Bool) (metrics : Metrics)
    (htier : check_shard_tier c shardIndex = some scaleUpTier)
    (hne : scaleUpTier ≠ "") (hnb : scaleUpTier ≠ baseTier)
    (hspec : (tierSpecs.lookup baseTier).isSome = true)
    (hauto : (check_autoscale_limits c shardIndex baseTier scaleUpTier).1 = true)
    (hold : (is_timestamp_very_old now lastTierUpdate 24).1 = true) :
    check_and_scale_down_shard (some c) shardIndex baseTier scaleUpTier
      lastTierUpdate minHours now tierSpecs primaryFound metrics =
      ShardDecision.recordAndWait := by
  obtain ⟨bs, hbs⟩ := Option.isSome_iff_exists.mp hspec
  unfold check_and_scale_down_shard
  dsimp only
  rw [htier]
  simp only [hbs, hauto, hold]
  simp [hne, hnb]

/-- All gates pass and the shard is eligible: the produced pending change
carries the shard index and the preserved disk size read from
`effectiveElectableSpecs` (shared helper for the eligible-branch claims). -/
theorem decision_eligible_of_gates (c : ClusterInfo) (shardIndex : Int)
    (baseTier scaleUpTier : String) (lastTierUpdate : Option ℚ)
    (minHours : Int) (now : ℚ) (tierSpecs : TierSpecs) (metrics : Metrics)
    (htier : check_shard_tier c shardIndex = some scaleUpTier)
    (hne : scaleUpTier ≠ "") (hnb : scaleUpTier ≠ baseTier)
    (hspec : (tierSpecs.lookup baseTier).isSome = true)
    (hauto : (check_autoscale_limits c shardIndex baseTier scaleUpTier).1 = true)
    (hnotold : (is_timestamp_very_old now lastTierUpdate 24).1 = false)
    (hdwell : (check_time_since_update now lastTierUpdate minHours).1 = true)
    (hsafe : (check_safety_conditions baseTier scaleUpTier metrics tierSpecs).1 = true) :
    check_and_scale_down_shard (some c) shardIndex baseTier scaleUpTier
      lastTierUpdate minHours now tierSpecs true metrics =
      ShardDecision.eligible ⟨shardIndex, current_disk_size_of c shardIndex⟩ := by
  obtain ⟨bs, hbs⟩ := Option.isSome_iff_exists.mp hspec
  unfold check_and_scale_down_shard
  dsimp only
  rw [htier]
  simp only [hbs, hauto, hnotold, hdwell, hsafe]
  simp [hne, hnb]

/-! ## Concrete fixtures -/

/-- A concrete flat-form `electableSpecs` (tier `M40`, 3 nodes, 100 GB). -/
def exElectable : ElectableSpecs :=
  ⟨some "M40", some 3, some 100, some 3000, some "PROVISIONED"⟩

/-- A concrete region config: `effectiveElectableSpecs` reports `M40` with
100 GB, autoscale compute bounds `[M30, M60]`. -/
def exRegion : RegionConfig :=
  ⟨some 7, some "US_EAST_1", some "AWS", some exElectable, none, none,
    some ⟨some ⟨some "M30", some "M60"⟩⟩,
    some ⟨some "M40", some 3, some 100, none, none⟩⟩

/-- A one-shard cluster in the flat region encoding. -/
def exCluster : ClusterInfo :=
  ⟨[⟨some "5f1", some 1, some "Zone 1", some [exRegion], none⟩],
    some ⟨some "AWS"⟩⟩

/-- The same region but with no `diskSizeGB` in `effectiveElectableSpecs`. -/
def exRegionNoDisk : RegionConfig :=
  { exRegion with
    effectiveElectableSpecs := some ⟨some "M40", some 3, none, none, none⟩ }

def exClusterNoDisk : ClusterInfo :=
  ⟨[⟨some "5f1", some 1, some "Zone 1", some [exRegionNoDisk], none⟩],
    some ⟨some "AWS"⟩⟩

def exTierSpecs : TierSpecs :=
  [("M30", ⟨8, 3000, 3000⟩), ("M40", ⟨16, 6000, 6000⟩)]

/-- Witness for C4: a shard at `M40` (base `M30`), bounds `[M30, M60]`,
last change 30 hours ago — the dwell requirement (4h) alone would pass,
yet the classification is `RECORD_AND_WAIT`. -/
theorem new_event_precedes_dwell_witness :
    (check_time_since_update 360000 (some 252000) 4).1 = true ∧
    check_and_scale_down_shard (some exCluster) 0 "M30" "M40" (some 252000) 4
        360000 exTierSpecs true default_metrics = ShardDecision.recordAndWait := by
  constructor
  · norm_num [check_time_since_update]
  · exact new_event_precedes_dwell exCluster 0 "M30" "M40" (some 252000) 4 360000
      exTierSpecs true default_metrics
      (by decide) (by decide) (by decide) (by decide) (by decide)
      (by norm_num [is_timestamp_very_old])

/-- Claim C10: a shard that passes every gate but whose
`effectiveElectableSpecs` carries no `diskSizeGB` (through the located
region config) becomes eligible with the silent constant default `80.0`,
and the `electableSpecs` mutation then writes `int(80.0) = 80` as the
shard's `diskSizeGB` in the PATCH payload. -/
theorem eligible_missing_disk_defaults (c : ClusterInfo) (shardIndex : Int)
    (baseTier scaleUpTier : String) (lastTierUpdate : Option ℚ)
    (minHours : Int) (now : ℚ) (tierSpecs : TierSpecs) (metrics : Metrics)
    (htier : check_shard_tier c shardIndex = some scaleUpTier)
    (hne : scaleUpTier ≠ "") (hnb : scaleUpTier ≠ baseTier)
    (hspec : (tierSpecs.lookup baseTier).isSome = true)
    (hauto : (check_autoscale_limits c shardIndex baseTier scaleUpTier).1 = true)
    (hnotold : (is_timestamp_very_old now lastTierUpdate 24).1 = false)
    (hdwell : (check_time_since_update now lastTierUpdate minHours).1 = true)
    (hsafe : (check_safety_conditions baseTier scaleUpTier metrics tierSpecs).1 = true)
    (hdisk : (get_region_config c shardIndex).bind
      (fun rc => rc.effectiveElectableSpecs.bind (fun es => es.diskSizeGB)) = none) :
    check_and_scale_down_shard (some c) shardIndex baseTier scaleUpTier
        lastTierUpdate minHours now tierSpecs true metrics =
      ShardDecision.eligible ⟨shardIndex, 80⟩ ∧
    ∀ (targetTier : String) (es : ElectableSpecs),
      (apply_electable targetTier 80 es).diskSizeGB = some 80 := by
  have hsize : current_disk_size_of c shardIndex = 80 := by
    unfold current_disk_size_of
    cases hrc : get_region_config c shardIndex with
    | none => rfl
    | some rc =>
      rw [hrc] at hdisk
      simp only [Option.some_bind] at hdisk
      dsimp only
      rw [hdisk]
      rfl
  constructor
  · rw [decision_eligible_of_gates c shardIndex baseTier scaleUpTier lastTierUpdate
      minHours now tierSpecs metrics htier hne hnb hspec hauto hnotold hdwell hsafe,
      hsize]
  · intro targetTier es
    have htr : pyTruncInt 80 = 80 := by
      norm_num [pyTruncInt]
    simp [apply_electable, htr]

/-- Witness for C10: the fixture cluster whose `effectiveElectableSpecs`
lacks `diskSizeGB`; every gate passes (10h old timestamp, dwell 4h, zero
metrics) and the pending change carries 80. -/
theorem eligible_missing_disk_defaults_witness :
    check_and_scale_down_shard (some exClusterNoDisk) 0 "M30" "M40" (some 324000) 4
        360000 exTierSpecs true default_metrics =
      ShardDecision.eligible ⟨0, 80⟩ ∧
    ∀ (targetTier : String) (es : ElectableSpecs),
      (apply_electable targetTier 80 es).diskSizeGB = some 80 :=
  eligible_missing_disk_defaults exClusterNoDisk 0 "M30" "M40" (some 324000) 4 360000
    exTierSpecs default_metrics
    (by decide) (by decide) (by decide) (by decide) (by decide)
    (by norm_num [is_timestamp_very_old])
    (by norm_num [check_time_since_update])
    (by simp only [check_safety_conditions, exTierSpecs, List.lookup,
        String.reduceBEq, default_metrics]
        norm_num)
    (by decide)

/-- Claim C7: if the single cluster-level PATCH fails (for any reason —
missing cluster document, count guard, or rejected request), no
`lastTierUpdate` timestamp is written for any shard of the eligible
batch; the batch's timestamps are written exactly when the PATCH
succeeded. -/
theorem patch_failure_no_batch_writes (baseTier scaleUpTier : String)
    (shards : List ShardEvalInput) (minHours : Int) (now : ℚ)
    (tierSpecs : TierSpecs) (patchClusterInfo : Option ClusterInfo)
    (patchAccepted : Bool) :
    ((monitor_cluster baseTier scaleUpTier shards minHours now tierSpecs
        patchClusterInfo patchAccepted).patchOk = false →
      (monitor_cluster baseTier scaleUpTier shards minHours now tierSpecs
        patchClusterInfo patchAccepted).batchTimestampWrites = []) ∧
    ((monitor_cluster baseTier scaleUpTier shards minHours now tierSpecs
        patchClusterInfo patchAccepted).batchTimestampWrites =
      if (monitor_cluster baseTier scaleUpTier shards minHours now tierSpecs
          patchClusterInfo patchAccepted).patchOk
      then (monitor_cluster baseTier scaleUpTier shards minHours now tierSpecs
          patchClusterInfo patchAccepted).shardUpdates.map (fun u => u.shard_index)
      else []) := by
  simp only [monitor_cluster]
  split
  · simp
  · constructor
    · intro h
      dsimp only at h ⊢
      rw [h]
      simp
    · dsimp only

/-- Witness for the amended C6 claim at the concrete tier name `M30`. -/
theorem tier_to_number_total_nonneg_witness :
    ('-' ∉ "M30".data) ∧ 0 ≤ tier_to_number "M30" :=
  ⟨by decide, tier_to_number_total_nonneg.2 "M30" (by decide)⟩

/-- Witness for C2 on the concrete one-shard cluster: shard 0 targeted,
shard 1 untargeted (out of range). -/
theorem update_payload_frame_witness :
    ∃ specs, build_update_payload exCluster [⟨0, 100⟩] "M30" = some specs ∧
      (specs.get? 0).map all_auto_scalings =
        (exCluster.replicationSpecs.get? 0).map all_auto_scalings ∧
      specs.get? 1 =
        (exCluster.replicationSpecs.map
          (normalize_spec (provider_name_of exCluster))).get? 1 := by
  obtain ⟨specs, hsome, hscal, herase, huntargeted⟩ :=
    update_payload_frame exCluster [⟨0, 100⟩] "M30"
  exact ⟨specs, hsome, hscal 0, huntargeted 1 (by decide)⟩

/-- Witness for C7: one eligible shard (the fixture cluster, timestamp 10h
old, zero metrics), PATCH rejected — the batch produces one pending change
yet no timestamp write happens. -/
theorem patch_failure_no_batch_writes_witness :
    (monitor_cluster "M30" "M40"
        [⟨0, some exCluster, some 324000, true, default_metrics⟩]
        4 360000 exTierSpecs (some exCluster) false).shardUpdates = [⟨0, 100⟩] ∧
    (monitor_cluster "M30" "M40"
        [⟨0, some exCluster, some 324000, true, default_metrics⟩]
        4 360000 exTierSpecs (some exCluster) false).patchOk = false ∧
    (monitor_cluster "M30" "M40"
        [⟨0, some exCluster, some 324000, true, default_metrics⟩]
        4 360000 exTierSpecs (some exCluster) false).batchTimestampWrites = [] := by
  have hsize : current_disk_size_of exCluster 0 = 100 := by decide
  have hdec : check_and_scale_down_shard (some exCluster) 0 "M30" "M40"
      (some 324000) 4 360000 exTierSpecs true default_metrics =
      ShardDecision.eligible ⟨0, 100⟩ := by
    rw [decision_eligible_of_gates exCluster 0 "M30" "M40" (some 324000) 4 360000
      exTierSpecs default_metrics
      (by decide) (by decide) (by decide) (by decide) (by decide)
      (by norm_num [is_timestamp_very_old])
      (by norm_num [check_time_since_update])
      (by simp only [check_safety_conditions, exTierSpecs, List.lookup,
            String.reduceBEq, default_metrics]
          norm_num), hsize]
  have hud : update_cluster_shards (some exCluster) [⟨0, 100⟩] "M30" false = false := by
    simp only [update_cluster_shards, build_update_payload_eq]
  have hmon : monitor_cluster "M30" "M40"
      [⟨0, some exCluster, some 324000, true, default_metrics⟩]
      4 360000 exTierSpecs (some exCluster) false =
      ⟨[⟨0, 100⟩], [], false, []⟩ := by
    simp only [monitor_cluster, List.map, hdec, List.filterMap, hud]
    simp
  refine ⟨by rw [hmon], by rw [hmon], ?_⟩
  refine (patch_failure_no_batch_writes "M30" "M40"
    [⟨0, some exCluster, some 324000, true, default_metrics⟩]
    4 360000 exTierSpecs (some exCluster) false).1 ?_
  rw [hmon]

end AtlasScale
